import Mathlib

/-!
Verification development for the Gaussian-splatting scene-parameter container
(`src/gaussian.cu`) and the camera component (`src/camera.cu`).

Modelling conventions:
* Torch float tensors are modelled as a shape (list of extents) together with a
  total data function from multi-indices to real numbers; 32-bit float
  arithmetic is idealised as real arithmetic.
* Headers of this repository that are not part of the provided sources
  (`gaussian.cuh`, `point_cloud` record, `camera_utils.cuh`, `camera_info.cuh`,
  `parameters.cuh`) are modelled from the spec; each such definition carries a
  doc comment beginning with "Modelled from the spec".
* Behaviour of the external libtorch library at the call sites appearing in the
  sources is translated faithfully; in particular `from_blob` with a
  one-element shape list yields a rank-1 tensor, `index_put_` enforces the
  broadcast rules on its source, an integer tensor index removes the indexed
  axis, `transpose` rejects an axis index that is out of range, and
  registering a module parameter under an already-registered name is refused.
  C++ exceptions are modelled by returning the mutated-so-far state together
  with an error value, matching the fact that member assignments made before a
  throw persist on the object.
* Device moves (`.to(torch::kCUDA)`), `.contiguous()` and `.clone()` are
  identities in this value-level model, and autograd flags are not tracked.
-/

noncomputable section

/-- A torch float tensor: a shape and a total map from multi-indices to the
stored value.  Out-of-range indices read arbitrary junk (here 0); no theorem
below depends on out-of-range reads except where the underlying buffer is
itself a total constant function. -/
structure Tensor where
  shape : List ℕ
  data : List ℕ → ℝ

/-- Remove the entry at position `i` of a shape / index list. -/
def listEraseAt : List ℕ → ℕ → List ℕ
  | [], _ => []
  | _ :: xs, 0 => xs
  | x :: xs, n + 1 => x :: listEraseAt xs n

/-- Insert value `v` at position `n` of an index list. -/
def listInsertAt : List ℕ → ℕ → ℕ → List ℕ
  | xs, 0, v => v :: xs
  | [], _ + 1, v => [v]
  | x :: xs, n + 1, v => x :: listInsertAt xs n v

/-- Apply `f` to the entry at position `n` of a shape / index list. -/
def listModifyAt : List ℕ → ℕ → (ℕ → ℕ) → List ℕ
  | [], _, _ => []
  | x :: xs, 0, f => f x :: xs
  | x :: xs, n + 1, f => x :: listModifyAt xs n f

/-- Swap the entries at positions `i` and `j` of a shape / index list. -/
def listSwapAt (l : List ℕ) (i j : ℕ) : List ℕ :=
  (l.set i (l.getD j 0)).set j (l.getD i 0)

/-- Model of `torch::empty({0})`: a one-dimensional tensor of extent 0.  The
source leaves the (zero) elements uninitialised; the data function is junk. -/
def tempty0 : Tensor := ⟨[0], fun _ => 0⟩

/-- Model of `torch::zeros(shape)`. -/
def tzeros (s : List ℕ) : Tensor := ⟨s, fun _ => 0⟩

/-- Model of `torch::ones(shape)`. -/
def tones (s : List ℕ) : Tensor := ⟨s, fun _ => 1⟩

/-- Elementwise map, the model of torch pointwise operations. -/
def tmap (f : ℝ → ℝ) (t : Tensor) : Tensor := ⟨t.shape, fun ix => f (t.data ix)⟩

/-- Model of multiplying a tensor by a scalar. -/
def tsmul (c : ℝ) (t : Tensor) : Tensor := tmap (fun x => c * x) t

/-- Model of `torch::clamp_min(t, lo)`. -/
def tclampMin (t : Tensor) (lo : ℝ) : Tensor := tmap (fun x => max x lo) t

/-- Model of `torch::sqrt`. -/
def tsqrt (t : Tensor) : Tensor := tmap Real.sqrt t

/-- Model of `torch::log`. -/
def tlog (t : Tensor) : Tensor := tmap Real.log t

/-- Model of torch integer indexing along axis `d` at position `i`
(`t.index({..., i, ...})` with an integer where the other axes are full
slices): the indexed axis is REMOVED from the shape, exactly as in
libtorch/Python (`x[:, :, 0]` has one axis fewer than `x`). -/
def tselect (t : Tensor) (d i : ℕ) : Tensor :=
  ⟨listEraseAt t.shape d, fun ix => t.data (listInsertAt ix d i)⟩

/-- Model of `t.transpose(d0, d1)`.  libtorch wraps and checks the axis
arguments against the tensor rank and raises "Dimension out of range" when an
axis index is not below the rank; the error case is `none`. -/
def ttransposeAt (t : Tensor) (d0 d1 : ℕ) : Option Tensor :=
  if d0 < t.shape.length ∧ d1 < t.shape.length then
    some ⟨listSwapAt t.shape d0 d1, fun ix => t.data (listSwapAt ix d0 d1)⟩
  else none

/-- Model of `t.index({Slice(), ..., Slice(k)})`: keep axis `d` but drop its
first `k` positions. -/
def tsliceFrom (t : Tensor) (d k : ℕ) : Tensor :=
  ⟨listModifyAt t.shape d (fun x => x - k), fun ix => t.data (listModifyAt ix d (fun x => x + k))⟩

/-- Model of `t.unsqueeze(-1)`: append a trailing axis of extent 1. -/
def tunsqueezeLast (t : Tensor) : Tensor :=
  ⟨t.shape ++ [1], fun ix => t.data ix.dropLast⟩

/-- Model of `t.repeat({1, 3})` on a rank-2 tensor: the second extent is
tripled and reads wrap modulo the original extent. -/
def trepeat13 (t : Tensor) : Tensor :=
  match t.shape with
  | [n, m] => ⟨[n, m * 3], fun ix =>
      match ix with
      | [i, j] => t.data [i, j % m]
      | _ => 0⟩
  | _ => t

/-- Model of `torch::cat({a, b}, 1)`: requires rank at least 2 on both inputs,
equal ranks, and equal extents away from axis 1; libtorch raises otherwise. -/
def tcat1 (a b : Tensor) : Option Tensor :=
  if 2 ≤ a.shape.length ∧ a.shape.length = b.shape.length ∧
      listEraseAt a.shape 1 = listEraseAt b.shape 1 then
    some ⟨listModifyAt a.shape 1 (fun x => x + b.shape.getD 1 0),
      fun ix =>
        if ix.getD 1 0 < a.shape.getD 1 0 then a.data ix
        else b.data (listModifyAt ix 1 (fun x => x - a.shape.getD 1 0))⟩
  else none

/-- Model of `features.index_put_({Slice(), Slice(0, 3), 0}, src)` at
gaussian.cu line 86, on a rank-3 target with a rank-1 source, INCLUDING
libtorch's broadcast check: after the integer index drops the last axis the
indexed view has shape (n, min(3, c)), and a rank-1 source of extent s
broadcasts into it only when s equals the view's trailing extent or is 1; any
other extent makes `index_put_` raise a shape/expand mismatch (`none` here).
On success, positions `[i, j, 0]` with `j < min(3, c)` receive `src[j mod s]`.
The integer index 0 on the last axis is in range at the call site because the
last extent `(max_sh_degree+1)^2` is positive, so that check is not
modelled. -/
def indexPutDC (features src : Tensor) : Option Tensor :=
  match features.shape, src.shape with
  | [n, c, k], [s] =>
      if s = min 3 c ∨ s = 1 then
        some ⟨[n, c, k], fun ix =>
          match ix with
          | [i, j, k2] => if j < min 3 c ∧ k2 = 0 then src.data [j % s] else features.data [i, j, k2]
          | _ => features.data ix⟩
      else none
  | _, _ => none

/-- Model of `features.index_put_({Slice(), Slice(3), Slice(1)}, 0.0)` on a
rank-3 tensor: positions `[i, j, k]` with `3 ≤ j` and `1 ≤ k` are zeroed.
(On the shapes produced by `create_from_pcd` the written region is empty.) -/
def indexPutTail (features : Tensor) : Tensor :=
  ⟨features.shape, fun ix =>
    match ix with
    | [i, j, k] => if 3 ≤ j ∧ 1 ≤ k then 0 else features.data [i, j, k]
    | _ => features.data ix⟩

/-- Model of `rots.index_put_({Slice(), 0}, v)` on a rank-2 tensor: column 0 is
set to `v`. -/
def indexPutCol0 (t : Tensor) (v : ℝ) : Tensor :=
  ⟨t.shape, fun ix =>
    match ix with
    | [i, j] => if j = 0 then v else t.data [i, j]
    | _ => t.data ix⟩

/-- Model of `set_requires_grad(true)`: autograd flags are outside this
value-level model, so this is the identity. -/
def setRequiresGrad (t : Tensor) : Tensor := t

/-- Errors raised by the libtorch calls appearing in the sources. -/
inductive TorchError where
  | dimOutOfRange
  | broadcastMismatch
  | duplicateParam
deriving DecidableEq

/-- Modelled from the spec: the point-cloud record (its header is not among
the sources).  The spec requires parallel per-point 3-float position and
3-float colour arrays of equal length. -/
structure PointCloud where
  points : List (ℝ × ℝ × ℝ)
  colors : List (ℝ × ℝ × ℝ)

/-- Component `j` (0, 1 or 2) of a 3-float entry. -/
def tripleGet (p : ℝ × ℝ × ℝ) (j : ℕ) : ℝ :=
  match j with
  | 0 => p.1
  | 1 => p.2.1
  | _ => p.2.2

/-- Model of
`torch::from_blob(container.data(), {static_cast<long>(container.size())})`
at gaussian.cu lines 82, 83 and 91: the one-element shape list makes the
result a RANK-1 tensor whose extent is the container's element count,
whatever the record layout is.  Modelled from the spec for what the call site
cannot show: the point-cloud record (header absent from the sources) stores
one element of 3 contiguous floats per point, so the extent is the point
count and position `i` of the underlying float stream holds component
`i mod 3` of point `i / 3`.  The data function extends the stream reads past
the declared extent, since `from_blob` is a view over the raw buffer. -/
def fromBlob1 (l : List (ℝ × ℝ × ℝ)) : Tensor :=
  ⟨[l.length], fun ix =>
    match ix with
    | [i] => tripleGet (l.getD (i / 3) (0, 0, 0)) (i % 3)
    | _ => 0⟩

/-- Modelled from the spec: the fixed RGB-to-SH0 linear transform constant
(`0.28209479177387814`, i.e. the degree-0 spherical-harmonic basis value). -/
def SH_C0 : ℝ := 28209479177387814 / 100000000000000000

/-- Modelled from the spec: `RGB2SH` maps an RGB value in [0,1] to the
degree-0 SH coefficient via the fixed linear transform. -/
def RGB2SH (t : Tensor) : Tensor := tmap (fun c => (c - 1 / 2) / SH_C0) t

/-- Squared euclidean distance between points `i` and `j` of the flattened
3-floats-per-point buffer underlying a blob tensor. -/
def sqDist (t : Tensor) (i j : ℕ) : ℝ :=
  (t.data [3 * i] - t.data [3 * j]) ^ 2 +
    (t.data [3 * i + 1] - t.data [3 * j + 1]) ^ 2 +
    (t.data [3 * i + 2] - t.data [3 * j + 2]) ^ 2

/-- Modelled from the spec: `distCUDA2` is an external CUDA kernel returning,
per point, the (mean) squared nearest-neighbour distance; it yields one value
per point of the rank-1 blob it receives, reading the coordinates through the
underlying raw buffer.  Only its shape matters to the claims; the value is
the squared distance to the nearest other point (`sInf` of the empty set
is 0). -/
def distCUDA2 (t : Tensor) : Tensor :=
  ⟨[t.shape.headD 0], fun ix =>
    sInf {d : ℝ | ∃ j, j < t.shape.headD 0 ∧ j ≠ ix.headD 0 ∧ d = sqDist t (ix.headD 0) j}⟩

/-- Modelled from the spec: `inverse_sigmoid` is the logit function. -/
def inverse_sigmoid (t : Tensor) : Tensor :=
  tmap (fun x => Real.log (x / (1 - x))) t

/-- Modelled from the spec: the exponential learning-rate schedule functor
(`Expon_lr_func`, declared in a header not among the sources).  The claims
concern only its construction arguments, so only those are modelled; the
third and fourth constructor arguments default to 1.0 and 1000000 when the
source constructs it with two arguments. -/
structure ExponLrFunc where
  lr_init : ℝ
  lr_final : ℝ
  lr_delay_mult : ℝ
  max_steps : ℕ

/-- Build an `ExponLrFunc` from its four constructor arguments. -/
def mkExponLr (i f d : ℝ) (m : ℕ) : ExponLrFunc :=
  { lr_init := i, lr_final := f, lr_delay_mult := d, max_steps := m }

/-- Modelled from the spec: the Adam optimizer options visible at the
construction site `torch::optim::Adam(parameters(), AdamOptions(0.0).eps(1e-15))`:
the base learning rate, the numerical epsilon, and the registered parameter
names it is bound to. -/
structure AdamState where
  lr : ℝ
  eps : ℝ
  paramKeys : List String

/-- Modelled from the spec: the optimization-parameter record
(`parameters.cuh` is not among the sources); the fields read by
`training_setup` per the spec. -/
structure OptimizationParameters where
  percent_dense : ℝ
  position_lr_init : ℝ
  position_lr_final : ℝ
  position_lr_delay_mult : ℝ
  position_lr_max_steps : ℕ

/-- The state of a `GaussianModel` (`gaussian.cu`).  Field names follow the
C++ members without the leading underscore.  `registered` models the
`torch::nn::Module` named-parameter dictionary populated by
`register_parameter`. -/
structure GaussianState where
  max_sh_degree : ℕ
  active_sh_degree : ℕ
  xyz : Tensor
  features_dc : Tensor
  features_rest : Tensor
  scaling : Tensor
  rotation : Tensor
  opacity : Tensor
  max_radii2D : Tensor
  xyz_gradient_accum : Tensor
  denom : Tensor
  spatial_lr_scale : ℝ
  percent_dense : ℝ
  registered : List String
  optimizer : Option AdamState
  xyz_scheduler_args : ExponLrFunc

/-- Model of libtorch `register_parameter` on the named-parameter dictionary:
`OrderedDict::insert` refuses a key that is already present ("Parameter '...'
already defined"), returning `none` here; otherwise the name is appended. -/
def register_parameter (regs : List String) (nm : String) : Option (List String) :=
  if nm ∈ regs then none else some (regs ++ [nm])

/-- The `GaussianModel(int sh_degree)` constructor (`gaussian.cu` lines 3-43):
degree counters, empty tensors, and the six registered optimizable parameters.
The six `register_parameter` calls insert distinct names into the empty
dictionary and therefore all succeed; the resulting dictionary is written
directly.  `denom`, `spatial_lr_scale` and `percent_dense` are left
uninitialised by the C++ constructor; the model gives them inert defaults
which no claim reads before they are assigned. -/
def gaussianModelNew (sh_degree : ℕ) : GaussianState :=
  { max_sh_degree := sh_degree
    active_sh_degree := 0
    xyz := tempty0
    features_dc := tempty0
    features_rest := tempty0
    scaling := tempty0
    rotation := tempty0
    opacity := tempty0
    max_radii2D := tempty0
    xyz_gradient_accum := tempty0
    denom := tempty0
    spatial_lr_scale := 0
    percent_dense := 0
    registered := ["xyz", "features_dc", "features_rest", "scaling", "rotation", "opacity"]
    optimizer := none
    xyz_scheduler_args := mkExponLr 0 1 1 1000000 }

/-- `GaussianModel::get_features` (`gaussian.cu` lines 52-56): concatenate
`features_dc` and `features_rest` along axis 1. -/
def get_features (m : GaussianState) : Option Tensor :=
  tcat1 m.features_dc m.features_rest

/-- `GaussianModel::oneupSHdegree` (`gaussian.cu` lines 63-67). -/
def oneupSHdegree (m : GaussianState) : GaussianState :=
  if m.active_sh_degree < m.max_sh_degree then
    { m with active_sh_degree := m.active_sh_degree + 1 }
  else m

/-- `GaussianModel::create_from_pcd` (`gaussian.cu` lines 79-105), translated
statement by statement.  A raised libtorch error is returned alongside the
state as mutated so far (C++ member assignments made before a throw persist).
Two statements can raise: at line 86 the rank-1 colour blob must broadcast
into the (N, 3) view of `features`, which fails whenever the colour
container's element count is neither the view's trailing extent 3 nor 1; and
at line 99 `features.index({Slice(), Slice(), 0})` has rank 2, so
`.transpose(1, 2)` raises "Dimension out of range" whenever it is reached. -/
def create_from_pcd (m : GaussianState) (pcd : PointCloud) (spatial_lr_scale : ℝ) :
    GaussianState × Option TorchError :=
  let m1 := { m with spatial_lr_scale := spatial_lr_scale }
  let fused_point_cloud := fromBlob1 pcd.points
  let fused_color := RGB2SH (fromBlob1 pcd.colors)
  let features0 := tzeros [fused_color.shape.headD 0, 3, (m.max_sh_degree + 1) ^ 2]
  match indexPutDC features0 fused_color with
  | none => (m1, some TorchError.broadcastMismatch)
  | some features1 =>
    let features := indexPutTail features1
    let dist2 := tclampMin (distCUDA2 (fromBlob1 pcd.points)) (1 / 10000000)
    let scales := trepeat13 (tunsqueezeLast (tlog (tsqrt dist2)))
    let rots := indexPutCol0 (tzeros [fused_point_cloud.shape.headD 0, 4]) 1
    let opacities := inverse_sigmoid (tsmul (1 / 2) (tones [fused_point_cloud.shape.headD 0, 1]))
    let m2 := { m1 with xyz := setRequiresGrad fused_point_cloud }
    match ttransposeAt (tselect features 2 0) 1 2 with
    | none => (m2, some TorchError.dimOutOfRange)
    | some fdc =>
      match ttransposeAt (tsliceFrom features 2 1) 1 2 with
      | none => (m2, some TorchError.dimOutOfRange)
      | some frest =>
        ({ m2 with
            features_dc := fdc
            features_rest := frest
            scaling := scales
            rotation := rots
            opacity := opacities
            max_radii2D := tzeros [m2.xyz.shape.headD 0] }, none)

/-- `GaussianModel::training_setup` (`gaussian.cu` lines 115-126), translated
statement by statement.  `percent_dense` and the two N×1 zero accumulators are
assigned first; then `register_parameter("xyz", ...)` re-registers a name the
constructor already registered, which libtorch refuses, so the Adam optimizer
and the scheduler construction are only reached when "xyz" is absent from the
dictionary. -/
def training_setup (m : GaussianState) (params : OptimizationParameters) :
    GaussianState × Option TorchError :=
  let m1 := { m with
    percent_dense := params.percent_dense
    xyz_gradient_accum := tzeros [m.xyz.shape.headD 0, 1]
    denom := tzeros [m.xyz.shape.headD 0, 1] }
  match register_parameter m1.registered "xyz" with
  | none => (m1, some TorchError.duplicateParam)
  | some regs =>
    let m2 := { m1 with registered := regs }
    ({ m2 with
        optimizer := some { lr := 0, eps := 1 / 1000000000000000, paramKeys := m2.registered }
        xyz_scheduler_args := mkExponLr (params.position_lr_init * m2.spatial_lr_scale)
          (params.position_lr_final * m2.spatial_lr_scale)
          params.position_lr_delay_mult params.position_lr_max_steps }, none)

/-- 3×3 real matrices (camera rotation). -/
abbrev Mat3 := Matrix (Fin 3) (Fin 3) ℝ

/-- 4×4 real matrices (view / projection transforms). -/
abbrev Mat4 := Matrix (Fin 4) (Fin 4) ℝ

/-- Real 3-vectors (translation, camera centre). -/
abbrev Vec3 := Fin 3 → ℝ

/-- Modelled from the spec: `getWorld2View2` (declared in `camera_utils.cuh`,
not among the sources) builds the 4×4 rigid world-to-camera transform from the
rotation, the translation, an extra offset target and a scale; the layout
follows the codebase's row-vector convention (rotation transposed in the upper
3×3 block, translation in the last row).  No claim inspects its entries. -/
def getWorld2View2 (R : Mat3) (t : Vec3) (translate : Vec3) (scale : ℝ) : Mat4 :=
  Matrix.of fun i j =>
    if hi : (i : ℕ) < 3 then
      if hj : (j : ℕ) < 3 then R ⟨j, hj⟩ ⟨i, hi⟩ else 0
    else
      if hj : (j : ℕ) < 3 then scale * (t ⟨j, hj⟩ + translate ⟨j, hj⟩) else 1

/-- Modelled from the spec: `getProjectionMatrix` (declared in
`camera_utils.cuh`, not among the sources) builds the standard perspective
projection from the near/far planes and the two fields of view.  No claim
inspects its entries. -/
def getProjectionMatrix (znear zfar fovX fovY : ℝ) : Mat4 :=
  let tanHalfX := Real.tan (fovX / 2)
  let tanHalfY := Real.tan (fovY / 2)
  !![1 / tanHalfX, 0, 0, 0;
     0, 1 / tanHalfY, 0, 0;
     0, 0, zfar / (zfar - znear), 1;
     0, 0, -(zfar * znear) / (zfar - znear), 0]

/-- Model of `W.unsqueeze(0)` on a 4×4 matrix: a batch of one matrix. -/
def unsqueeze0 (A : Mat4) : Fin 1 → Mat4 := fun _ => A

/-- Model of `bmm` on batches of one 4×4 matrix: batchwise matrix product. -/
def bmm1 (X Y : Fin 1 → Mat4) : Fin 1 → Mat4 := fun b => X b * Y b

/-- Model of `.squeeze(0)` on a batch of one matrix. -/
def squeeze0 (X : Fin 1 → Mat4) : Mat4 := X 0

/-- A `Camera` (`camera.cu`).  Field names follow the C++ members without the
leading underscore. -/
structure Camera where
  colmap_id : ℤ
  R : Mat3
  T : Vec3
  FoVx : ℝ
  FoVy : ℝ
  image_name : String
  uid : ℤ
  scale : ℝ
  original_image : Tensor
  image_width : ℕ
  image_height : ℕ
  znear : ℝ
  zfar : ℝ
  world_view_transform : Mat4
  projection_matrix : Mat4
  full_proj_transform : Mat4
  camera_center : Vec3

/-- The `Camera` constructor (`camera.cu` lines 9-36), translated statement by
statement: clamp the image to [0,1]; take the width from axis 2 and the height
from axis 1 of the clamped image (`size(d)` is modelled as `getD d 0`; every
claim stays on tensors of rank at least 3, where the two agree); fix the
near/far planes; build the view and projection transforms; compose them by
batched matrix multiply and squeeze; extract the camera centre from row 3 of
the inverse view transform. -/
def mkCamera (imported_colmap_id : ℤ) (R : Mat3) (T : Vec3) (FoVx FoVy : ℝ)
    (image : Tensor) (image_name : String) (uid : ℤ) (scale : ℝ) : Camera :=
  let original_image := tmap (fun x => min (max x 0) 1) image
  let znear : ℝ := 1 / 100
  let zfar : ℝ := 100
  let world_view_transform := getWorld2View2 R T (fun _ => 0) scale
  let projection_matrix := getProjectionMatrix znear zfar FoVx FoVy
  let full_proj_transform :=
    squeeze0 (bmm1 (unsqueeze0 world_view_transform) (unsqueeze0 projection_matrix))
  { colmap_id := imported_colmap_id
    R := R
    T := T
    FoVx := FoVx
    FoVy := FoVy
    image_name := image_name
    uid := uid
    scale := scale
    original_image := original_image
    image_width := original_image.shape.getD 2 0
    image_height := original_image.shape.getD 1 0
    znear := znear
    zfar := zfar
    world_view_transform := world_view_transform
    projection_matrix := projection_matrix
    full_proj_transform := full_proj_transform
    camera_center := fun i => (world_view_transform⁻¹) 3 i.castSucc }

/-- Modelled from the spec: the camera-calibration record (`camera_info.cuh`
is not among the sources).  The raw decoded image buffer is a byte array
addressed through the strides the source passes to `from_blob`; a released
(null) buffer is `none`. -/
structure CameraInfo where
  camera_ID : ℤ
  R : Mat3
  T : Vec3
  fov_x : ℝ
  fov_y : ℝ
  image_name : String
  img_w : ℕ
  img_h : ℕ
  channels : ℕ
  img_data : Option (ℕ → ℕ)

/-- Modelled from the spec: the model-parameter record passed to `loadCam`;
its fields are never read by the translated code (the source skips resolution
handling), so it carries no fields. -/
structure ModelParameters

/-- Model of `t.permute({2, 0, 1})` on a rank-3 tensor. -/
def tpermute201 (t : Tensor) : Tensor :=
  ⟨match t.shape with
    | [a, b, c] => [c, a, b]
    | s => s,
   fun ix =>
    match ix with
    | [k, i, j] => t.data [i, j, k]
    | ix => t.data ix⟩

/-- `loadCam` (`camera.cu` lines 39-52), translated statement by statement:
build the H×W×C uint8 tensor over the raw buffer with strides
`{w*c, c, 1}`, convert to float, permute to channel-first, divide by 255,
release the buffer and null the caller's pointer (the external `free_image`
has no value-level effect beyond that), then construct the `Camera` with the
default scale 1.  Reading through a null buffer is undefined behaviour in the
source; the model substitutes a zero buffer there, and no claim depends on
that case. -/
def loadCam (params : ModelParameters) (id : ℤ) (cam_info : CameraInfo) :
    Camera × CameraInfo :=
  let buf : ℕ → ℕ := cam_info.img_data.getD (fun _ => 0)
  let blob : Tensor :=
    ⟨[cam_info.img_h, cam_info.img_w, cam_info.channels],
     fun ix =>
      match ix with
      | [i, j, k] =>
          ((buf (i * (cam_info.img_w * cam_info.channels) + j * cam_info.channels + k) : ℕ) : ℝ)
      | _ => 0⟩
  let original_image_tensor := tmap (fun x => x / 255) (tpermute201 blob)
  let cam_info2 := { cam_info with img_data := none }
  (mkCamera cam_info.camera_ID cam_info.R cam_info.T cam_info.fov_x cam_info.fov_y
    original_image_tensor cam_info.image_name id 1, cam_info2)

/-- Claim C9's spec-side definition: the spec says the composition is
"mathematically a single 4×4 product". -/
def fullProjSpec (W P : Mat4) : Mat4 := W * P

/-- A concrete calibration record with a 4×4×3 buffer holding 255 everywhere,
the test vector of claim C8. -/
def ci255 : CameraInfo :=
  { camera_ID := 7
    R := 1
    T := fun _ => 0
    fov_x := 1
    fov_y := 1
    image_name := "white"
    img_w := 4
    img_h := 4
    channels := 3
    img_data := some fun _ => 255 }

/-- Helper: `oneupSHdegree` never changes `max_sh_degree`. -/
theorem oneup_max_const (m : GaussianState) :
    (oneupSHdegree m).max_sh_degree = m.max_sh_degree := by
  unfold oneupSHdegree
  split <;> rfl

/-- Helper: iterating `oneupSHdegree` never changes `max_sh_degree`. -/
theorem oneup_iter_max (m : GaussianState) (n : ℕ) :
    (oneupSHdegree^[n] m).max_sh_degree = m.max_sh_degree := by
  induction n with
  | zero => rfl
  | succ n ih =>
      rw [Function.iterate_succ_apply', oneup_max_const, ih]

/-- Helper: the active degree after one `oneupSHdegree` step, as a
conditional. -/
theorem oneup_active (m : GaussianState) :
    (oneupSHdegree m).active_sh_degree =
      if m.active_sh_degree < m.max_sh_degree then m.active_sh_degree + 1
      else m.active_sh_degree := by
  unfold oneupSHdegree
  split <;> rfl

/-- Helper: after `n` iterations of `oneupSHdegree` from the constructed
state, the active degree is `min n D`. -/
theorem oneup_iter_active (D n : ℕ) :
    (oneupSHdegree^[n] (gaussianModelNew D)).active_sh_degree = min n D := by
  induction n with
  | zero => simp [gaussianModelNew]
  | succ n ih =>
      have hD : (gaussianModelNew D).max_sh_degree = D := rfl
      rw [Function.iterate_succ_apply', oneup_active, oneup_iter_max, ih, hD]
      split <;> omega

/-- Claim C4: `oneupSHdegree` increments `active_sh_degree` by exactly 1 iff
it is below `max_sh_degree` and is otherwise a no-op; from the constructed
state with `max_sh_degree = D`, every iteration count keeps the active degree
at most `D` and non-decreasing, and `D + 5` calls leave it exactly `D`. -/
theorem C4_oneupSHdegree_saturation :
    (∀ m : GaussianState,
        ((oneupSHdegree m).active_sh_degree = m.active_sh_degree + 1 ↔
          m.active_sh_degree < m.max_sh_degree)) ∧
    (∀ m : GaussianState, m.max_sh_degree ≤ m.active_sh_degree → oneupSHdegree m = m) ∧
    (∀ D n : ℕ, (oneupSHdegree^[n] (gaussianModelNew D)).active_sh_degree ≤ D) ∧
    (∀ D n : ℕ, (oneupSHdegree^[n] (gaussianModelNew D)).active_sh_degree ≤
        (oneupSHdegree^[n + 1] (gaussianModelNew D)).active_sh_degree) ∧
    (∀ D : ℕ, (oneupSHdegree^[D + 5] (gaussianModelNew D)).active_sh_degree = D) := by
  refine ⟨fun m => ?_, fun m h => ?_, fun D n => ?_, fun D n => ?_, fun D => ?_⟩
  · rw [oneup_active]
    split
    · rename_i h
      exact ⟨fun _ => h, fun _ => rfl⟩
    · rename_i h
      omega
  · unfold oneupSHdegree
    rw [if_neg (by omega)]
  · rw [oneup_iter_active]; omega
  · rw [oneup_iter_active, oneup_iter_active]; omega
  · rw [oneup_iter_active]; omega

/-- Witness for claim C4: at max degree 0 the call is a no-op, and 5 calls
from degree 0 saturate at 0. -/
theorem C4_oneupSHdegree_saturation_witness :
    oneupSHdegree (gaussianModelNew 0) = gaussianModelNew 0 ∧
    (oneupSHdegree^[0 + 5] (gaussianModelNew 0)).active_sh_degree = 0 :=
  ⟨C4_oneupSHdegree_saturation.2.1 (gaussianModelNew 0) (Nat.le_refl 0),
   C4_oneupSHdegree_saturation.2.2.2.2 0⟩

/-- Helper: `create_from_pcd` always raises, one of two ways.  When the
colour container's element count is neither 3 nor 1, the rank-1 colour blob
fails the broadcast check of the `index_put_` at line 86, leaving only
`spatial_lr_scale` assigned; otherwise control reaches line 99, where the
integer-indexed rank-2 feature slice makes `transpose(1, 2)` raise, leaving
`spatial_lr_scale` and `xyz` assigned. -/
theorem create_from_pcd_cases (m : GaussianState) (pcd : PointCloud) (s : ℝ) :
    ((create_from_pcd m pcd s).1 = { m with spatial_lr_scale := s } ∧
      (create_from_pcd m pcd s).2 = some TorchError.broadcastMismatch) ∨
    ((create_from_pcd m pcd s).1 =
        { m with spatial_lr_scale := s, xyz := setRequiresGrad (fromBlob1 pcd.points) } ∧
      (create_from_pcd m pcd s).2 = some TorchError.dimOutOfRange) := by
  simp only [create_from_pcd, indexPutDC, tzeros, RGB2SH, tmap, fromBlob1, min_self]
  by_cases hc : pcd.colors.length = 3 ∨ pcd.colors.length = 1
  · rw [if_pos hc]
    exact Or.inr ⟨rfl, rfl⟩
  · rw [if_neg hc]
    exact Or.inl ⟨rfl, rfl⟩

/-- Helper: `create_from_pcd` returns a raised error on every input. -/
theorem create_from_pcd_raises (m : GaussianState) (pcd : PointCloud) (s : ℝ) :
    (create_from_pcd m pcd s).2.isSome = true := by
  rcases create_from_pcd_cases m pcd s with ⟨-, h⟩ | ⟨-, h⟩ <;> rw [h] <;> rfl

/-- Helper: every field of the model other than `spatial_lr_scale` and `xyz`
survives `create_from_pcd` unchanged, whichever way it raises. -/
theorem create_from_pcd_preserves (m : GaussianState) (pcd : PointCloud) (s : ℝ) :
    (create_from_pcd m pcd s).1.features_dc = m.features_dc ∧
    (create_from_pcd m pcd s).1.features_rest = m.features_rest ∧
    (create_from_pcd m pcd s).1.scaling = m.scaling ∧
    (create_from_pcd m pcd s).1.rotation = m.rotation ∧
    (create_from_pcd m pcd s).1.opacity = m.opacity ∧
    (create_from_pcd m pcd s).1.max_radii2D = m.max_radii2D ∧
    (create_from_pcd m pcd s).1.registered = m.registered ∧
    (create_from_pcd m pcd s).1.optimizer = m.optimizer ∧
    (create_from_pcd m pcd s).1.xyz_scheduler_args = m.xyz_scheduler_args := by
  rcases create_from_pcd_cases m pcd s with ⟨h, -⟩ | ⟨h, -⟩ <;> rw [h] <;>
    exact ⟨rfl, rfl, rfl, rfl, rfl, rfl, rfl, rfl, rfl⟩

/-- Helper: when "xyz" is already a registered parameter name,
`training_setup` stores `percent_dense` and the two N×1 zero accumulators and
then raises at `register_parameter`, leaving the scheduler and the optimizer
slot untouched. -/
theorem training_setup_dup (m : GaussianState) (params : OptimizationParameters)
    (h : "xyz" ∈ m.registered) :
    (training_setup m params).2 = some TorchError.duplicateParam ∧
    (training_setup m params).1.percent_dense = params.percent_dense ∧
    (training_setup m params).1.xyz_gradient_accum = tzeros [m.xyz.shape.headD 0, 1] ∧
    (training_setup m params).1.denom = tzeros [m.xyz.shape.headD 0, 1] ∧
    (training_setup m params).1.xyz_scheduler_args = m.xyz_scheduler_args ∧
    (training_setup m params).1.optimizer = m.optimizer := by
  simp only [training_setup, register_parameter]
  rw [if_pos h]
  exact ⟨rfl, rfl, rfl, rfl, rfl, rfl⟩

/-- Claim C1 (code bug): for EVERY model state, point cloud and scale,
`create_from_pcd` raises — a broadcast/expand mismatch at the line-86
`index_put_` when the rank-1 colour blob's extent is neither 3 nor 1, and
"Dimension out of range" at the line-99 transpose otherwise, because the
integer index drops the last axis.  The feature tensors are therefore never
populated and `get_features` never returns the claimed N×K×3 concatenation;
it still sees the pre-call (constructor-empty) tensors. -/
theorem C1_create_from_pcd_error_blocks_get_features :
    ∀ (m : GaussianState) (pcd : PointCloud) (s : ℝ),
      (create_from_pcd m pcd s).2.isSome = true ∧
      (create_from_pcd m pcd s).1.features_dc = m.features_dc ∧
      (create_from_pcd m pcd s).1.features_rest = m.features_rest ∧
      get_features (create_from_pcd m pcd s).1 = get_features m := by
  intro m pcd s
  obtain ⟨h1, h2, -, -, -, -, -, -, -⟩ := create_from_pcd_preserves m pcd s
  refine ⟨create_from_pcd_raises m pcd s, h1, h2, ?_⟩
  unfold get_features
  rw [h1, h2]

/-- Claim C2 (code bug): `create_from_pcd` raises before its assignment
section for the claimed defaults is reached (at line 86 or line 99):
`rotation`, `opacity` and `max_radii2D` keep their pre-call values for every
input, instead of being set to the identity quaternion, logit(0.5), and
zero. -/
theorem C2_defaults_never_stored :
    ∀ (m : GaussianState) (pcd : PointCloud) (s : ℝ),
      (create_from_pcd m pcd s).2.isSome = true ∧
      (create_from_pcd m pcd s).1.rotation = m.rotation ∧
      (create_from_pcd m pcd s).1.opacity = m.opacity ∧
      (create_from_pcd m pcd s).1.max_radii2D = m.max_radii2D := by
  intro m pcd s
  obtain ⟨-, -, -, h4, h5, h6, -, -, -⟩ := create_from_pcd_preserves m pcd s
  exact ⟨create_from_pcd_raises m pcd s, h4, h5, h6⟩

/-- Claim C3 (code bug): `_scaling` is never assigned: `create_from_pcd`
raises at line 86 before the scale tensor is even computed when the colour
count is neither 3 nor 1, and otherwise computes it at lines 91-92 only to
raise at the line-99 transpose before line 101 stores it; either way the
stored scaling keeps its pre-call value for every input. -/
theorem C3_scaling_never_stored :
    ∀ (m : GaussianState) (pcd : PointCloud) (s : ℝ),
      (create_from_pcd m pcd s).2.isSome = true ∧
      (create_from_pcd m pcd s).1.scaling = m.scaling := by
  intro m pcd s
  obtain ⟨-, -, h3, -, -, -, -, -, -⟩ := create_from_pcd_preserves m pcd s
  exact ⟨create_from_pcd_raises m pcd s, h3⟩

/-- Claim C5 (code bug): for any constructed model, after `create_from_pcd`
(whatever point cloud and scale), `training_setup` raises "Parameter 'xyz'
already defined" at its `register_parameter` call and never reaches the
scheduler construction: the position learning-rate schedule keeps the
constructor's `Expon_lr_func(0.0, 1.0)` arguments instead of being built from
`position_lr_init * spatial_lr_scale`. -/
theorem C5_lr_schedule_never_constructed :
    ∀ (D : ℕ) (params : OptimizationParameters) (pcd : PointCloud) (s : ℝ),
      (training_setup (create_from_pcd (gaussianModelNew D) pcd s).1 params).2 =
          some TorchError.duplicateParam ∧
      (training_setup (create_from_pcd (gaussianModelNew D) pcd s).1
            params).1.xyz_scheduler_args =
          (gaussianModelNew D).xyz_scheduler_args := by
  intro D params pcd s
  obtain ⟨-, -, -, -, -, -, hreg, -, hsched⟩ :=
    create_from_pcd_preserves (gaussianModelNew D) pcd s
  have hmem : "xyz" ∈ (create_from_pcd (gaussianModelNew D) pcd s).1.registered := by
    rw [hreg]
    exact List.mem_cons_self _ _
  obtain ⟨h1, -, -, -, h5, -⟩ :=
    training_setup_dup (create_from_pcd (gaussianModelNew D) pcd s).1 params hmem
  exact ⟨h1, by rw [h5, hsched]⟩

/-- Claim C6 (code bug): on the same runs, `training_setup` does store
`percent_dense` and does (re)allocate both accumulators as N×1 zero tensors
with N the current first extent of `xyz`, but it then raises at
`register_parameter("xyz", ...)` and the Adam optimizer (base rate 0,
epsilon 1e-15) is never constructed: the optimizer slot keeps its pre-call
value `none`. -/
theorem C6_training_setup_stores_then_throws :
    ∀ (D : ℕ) (params : OptimizationParameters) (pcd : PointCloud) (s : ℝ),
      (training_setup (create_from_pcd (gaussianModelNew D) pcd s).1 params).1.percent_dense =
          params.percent_dense ∧
      (training_setup (create_from_pcd (gaussianModelNew D) pcd s).1
            params).1.xyz_gradient_accum =
          tzeros [(create_from_pcd (gaussianModelNew D) pcd s).1.xyz.shape.headD 0, 1] ∧
      (training_setup (create_from_pcd (gaussianModelNew D) pcd s).1 params).1.denom =
          tzeros [(create_from_pcd (gaussianModelNew D) pcd s).1.xyz.shape.headD 0, 1] ∧
      (training_setup (create_from_pcd (gaussianModelNew D) pcd s).1 params).2 =
          some TorchError.duplicateParam ∧
      (training_setup (create_from_pcd (gaussianModelNew D) pcd s).1 params).1.optimizer =
          none := by
  intro D params pcd s
  obtain ⟨-, -, -, -, -, -, hreg, hopt, -⟩ :=
    create_from_pcd_preserves (gaussianModelNew D) pcd s
  have hmem : "xyz" ∈ (create_from_pcd (gaussianModelNew D) pcd s).1.registered := by
    rw [hreg]
    exact List.mem_cons_self _ _
  obtain ⟨h1, h2, h3, h4, -, h6⟩ :=
    training_setup_dup (create_from_pcd (gaussianModelNew D) pcd s).1 params hmem
  exact ⟨h2, h3, h4, h1, by rw [h6, hopt]; rfl⟩

/-- Claim C7: on an empty point cloud, or one whose position and colour counts
mismatch, `create_from_pcd` raises (it never returns normally) and none of the
six optimizable tensors beyond `xyz` is repopulated.  Note: the source has no
dedicated validation; the abort is the line-86 broadcast failure or the
line-99 indexing failure of claim C1, which fire on these invalid inputs as
on all others. -/
theorem C7_create_from_pcd_aborts_on_invalid_input :
    ∀ (m : GaussianState) (pcd : PointCloud) (s : ℝ),
      pcd.points = [] ∨ pcd.points.length ≠ pcd.colors.length →
      (create_from_pcd m pcd s).2.isSome = true ∧
      (create_from_pcd m pcd s).1.features_dc = m.features_dc ∧
      (create_from_pcd m pcd s).1.features_rest = m.features_rest ∧
      (create_from_pcd m pcd s).1.scaling = m.scaling ∧
      (create_from_pcd m pcd s).1.rotation = m.rotation ∧
      (create_from_pcd m pcd s).1.opacity = m.opacity ∧
      (create_from_pcd m pcd s).1.max_radii2D = m.max_radii2D := by
  intro m pcd s _
  obtain ⟨h1, h2, h3, h4, h5, h6, -, -, -⟩ := create_from_pcd_preserves m pcd s
  exact ⟨create_from_pcd_raises m pcd s, h1, h2, h3, h4, h5, h6⟩

/-- Witness for claim C7: the empty point cloud on a freshly constructed
degree-3 model. -/
theorem C7_create_from_pcd_aborts_on_invalid_input_witness :
    (create_from_pcd (gaussianModelNew 3) ⟨[], []⟩ 1).2.isSome = true ∧
    (create_from_pcd (gaussianModelNew 3) ⟨[], []⟩ 1).1.features_dc =
        (gaussianModelNew 3).features_dc ∧
    (create_from_pcd (gaussianModelNew 3) ⟨[], []⟩ 1).1.features_rest =
        (gaussianModelNew 3).features_rest ∧
    (create_from_pcd (gaussianModelNew 3) ⟨[], []⟩ 1).1.scaling =
        (gaussianModelNew 3).scaling ∧
    (create_from_pcd (gaussianModelNew 3) ⟨[], []⟩ 1).1.rotation =
        (gaussianModelNew 3).rotation ∧
    (create_from_pcd (gaussianModelNew 3) ⟨[], []⟩ 1).1.opacity =
        (gaussianModelNew 3).opacity ∧
    (create_from_pcd (gaussianModelNew 3) ⟨[], []⟩ 1).1.max_radii2D =
        (gaussianModelNew 3).max_radii2D :=
  C7_create_from_pcd_aborts_on_invalid_input (gaussianModelNew 3) ⟨[], []⟩ 1 (Or.inl rfl)

/-- Claim C8: `loadCam` always nulls the caller's image pointer and yields a
channel-first (C, H, W) image; on the 4×4×3 buffer holding 255 everywhere the
resulting `Camera.original_image` has shape (3, 4, 4) and the value 1 at every
rank-3 index. -/
theorem C8_loadCam_normalized_channel_first :
    (∀ (p : ModelParameters) (cid : ℤ) (ci : CameraInfo),
        (loadCam p cid ci).2.img_data = none ∧
        (loadCam p cid ci).1.original_image.shape = [ci.channels, ci.img_h, ci.img_w]) ∧
    ((loadCam ModelParameters.mk 0 ci255).1.original_image.shape = [3, 4, 4] ∧
      ∀ k i j : ℕ, (loadCam ModelParameters.mk 0 ci255).1.original_image.data [k, i, j] = 1) := by
  refine ⟨fun p cid ci => ⟨rfl, rfl⟩, rfl, fun k i j => ?_⟩
  have h : (loadCam ModelParameters.mk 0 ci255).1.original_image.data [k, i, j] =
      min (max (((255 : ℕ) : ℝ) / 255) 0) 1 := rfl
  rw [h]
  norm_num

/-- Claim C9: the batched multiply-then-squeeze composition of the view and
projection transforms computed by the `Camera` constructor equals the plain
single 4×4 matrix product, for every construction input. -/
theorem C9_full_proj_transform_single_product :
    ∀ (cid : ℤ) (R : Mat3) (T : Vec3) (fx fy : ℝ) (img : Tensor) (nm : String)
      (uid : ℤ) (sc : ℝ),
      (mkCamera cid R T fx fy img nm uid sc).full_proj_transform =
        fullProjSpec (mkCamera cid R T fx fy img nm uid sc).world_view_transform
          (mkCamera cid R T fx fy img nm uid sc).projection_matrix :=
  fun _ _ _ _ _ _ _ _ _ => rfl

/-- Claim C10: the `Camera` constructor sizes the view from axes 2 and 1 of
the (clamped) image tensor; the extent of axis 0 never enters either size, and
a channel-last H×W×3 input therefore yields `image_width = 3` and
`image_height = W` instead of failing. -/
theorem C10_camera_dims_from_axes_one_two :
    (∀ (cid : ℤ) (R : Mat3) (T : Vec3) (fx fy sc : ℝ) (nm : String) (uid : ℤ)
        (d0 d1 d2 : ℕ) (rest : List ℕ) (dat : List ℕ → ℝ),
        (mkCamera cid R T fx fy ⟨d0 :: d1 :: d2 :: rest, dat⟩ nm uid sc).image_width = d2 ∧
        (mkCamera cid R T fx fy ⟨d0 :: d1 :: d2 :: rest, dat⟩ nm uid sc).image_height = d1) ∧
    (∀ (cid : ℤ) (R : Mat3) (T : Vec3) (fx fy sc : ℝ) (nm : String) (uid : ℤ)
        (h w : ℕ) (dat : List ℕ → ℝ),
        (mkCamera cid R T fx fy ⟨[h, w, 3], dat⟩ nm uid sc).image_width = 3 ∧
        (mkCamera cid R T fx fy ⟨[h, w, 3], dat⟩ nm uid sc).image_height = w) :=
  ⟨fun _ _ _ _ _ _ _ _ _ _ _ _ _ => ⟨rfl, rfl⟩, fun _ _ _ _ _ _ _ _ _ _ _ => ⟨rfl, rfl⟩⟩
